import Mathlib

/-!
Shallow embedding of the value-transformation layer of the Gutenberg
global-styles panels: the padding/margin/gap splitter and filter pair of
dimensions-panel.js, and the border panel's write and query helpers.

JavaScript objects whose values are scalar-or-undefined are modelled as
ordered association lists, so that a key holding undefined is
distinguishable from a missing key (Object.keys sees the former but not
the latter), exactly as in the source. Property assignment keeps
insertion order, as JavaScript object assignment does.
-/

/-- A JavaScript object with string keys and scalar-or-undefined values,
modelled as an ordered association list without duplicate keys. A pair
with value none is a key holding undefined; a missing pair is a missing
key. -/
abbrev JSObj := List (String × Option String)

/-- Property read on an object: a missing key and a key holding undefined
both read as undefined. -/
def JSObj.get (o : JSObj) (k : String) : Option String :=
  (o.lookup k).getD none

/-- Property assignment: updates an existing key in place (keeping its
position) or appends a new key, as JavaScript assignment does. -/
def JSObj.assign (o : JSObj) (k : String) (v : Option String) : JSObj :=
  if (o.lookup k).isSome then
    o.map (fun p => if p.1 = k then (k, v) else p)
  else
    o ++ [(k, v)]

/-- A JavaScript value of the shapes this panel code handles: undefined,
a string scalar, a number, or an object of scalar-or-undefined values. -/
inductive JSVal where
  | undef
  | str (s : String)
  | num (n : Int)
  | obj (o : JSObj)
deriving DecidableEq, Repr

/-- JavaScript truthiness for the values above. -/
def JSVal.truthy : JSVal → Bool
  | .undef => false
  | .str s => s != ""
  | .num n => n != 0
  | .obj _ => true

/-- Optional-chaining property read (values?.k): undefined on anything
that is not an object holding that key. -/
def JSVal.getField : JSVal → String → Option String
  | .obj o, k => o.get k
  | _, _ => none

/-- Object.keys of a value. On a string the keys are character indices;
on undefined or a number there are none. -/
def JSVal.keysOf : JSVal → List String
  | .obj o => o.map Prod.fst
  | .str s => (List.range s.length).map (fun i => toString i)
  | _ => []

/-- Body of the forEach loop of filterValuesBySides: a vertical entry
copies top and bottom, a horizontal entry copies left and right, and the
final unconditional line copies the key named by the entry itself. -/
def filterSidesStep (values : JSObj) (acc : JSObj) (side : String) : JSObj :=
  let acc1 := if side = "vertical" then
      (acc.assign "top" (values.get "top")).assign "bottom" (values.get "bottom")
    else acc
  let acc2 := if side = "horizontal" then
      (acc1.assign "left" (values.get "left")).assign "right" (values.get "right")
    else acc1
  acc2.assign side (values.get side)

/-- filterValuesBySides from dimensions-panel.js: with no side
configuration the edited mapping is returned unchanged, otherwise the
entries are folded over an initially empty output object. -/
def filterValuesBySides (values : JSObj) (sides : Option (List String)) : JSObj :=
  match sides with
  | none => values
  | some ss => ss.foldl (filterSidesStep values) []

/-- Body of the forEach loop of filterGapValuesBySides: horizontal sets
column from left, vertical sets row from top, anything else is skipped. -/
def filterGapStep (values : JSVal) (acc : JSObj) (side : String) : JSObj :=
  let acc1 := if side = "horizontal" then acc.assign "column" (values.getField "left") else acc
  if side = "vertical" then acc1.assign "row" (values.getField "top") else acc1

/-- filterGapValuesBySides from dimensions-panel.js. -/
def filterGapValuesBySides (values : JSVal) (sides : Option (List String)) : JSObj :=
  match sides with
  | none => [("row", values.getField "top"), ("column", values.getField "left")]
  | some ss => ss.foldl (filterGapStep values) []

/-- splitStyleValue from dimensions-panel.js: a truthy string shorthand
is expanded to the four sides; any other value is returned unchanged. -/
def splitStyleValue (value : JSVal) : JSVal :=
  match value with
  | .str s =>
      if s != "" then
        .obj [("top", some s), ("right", some s), ("bottom", some s), ("left", some s)]
      else
        .str s
  | v => v

/-- splitGapStyleValue from dimensions-panel.js: a truthy string is
expanded to the four sides; otherwise rows and columns are converted to
side values via optional-chaining reads (for the falsy string, which
also takes this branch, those reads yield undefined, as getField does on
a string). -/
def splitGapStyleValue (value : JSVal) : JSVal :=
  match value with
  | .str s =>
      if s != "" then
        .obj [("top", some s), ("right", some s), ("bottom", some s), ("left", some s)]
      else
        .obj [("top", none), ("right", none), ("bottom", none), ("left", none)]
  | v =>
      .obj [("top", v.getField "row"), ("right", v.getField "column"),
            ("bottom", v.getField "row"), ("left", v.getField "column")]

/-- The shared hasValue shape of the dimensions panel, the Boolean value
of the expression (!!v && Object.keys(v).length). -/
def hasBoxValue (v : JSVal) : Bool :=
  v.truthy && v.keysOf.length != 0

/-- hasPaddingValue, as a function of the stored padding style value. -/
def hasPaddingValue (stored : JSVal) : Bool :=
  hasBoxValue (splitStyleValue stored)

/-- hasMarginValue, as a function of the stored margin style value. -/
def hasMarginValue (stored : JSVal) : Bool :=
  hasBoxValue (splitStyleValue stored)

/-- hasGapValue, as a function of the stored block-gap style value. -/
def hasGapValue (stored : JSVal) : Bool :=
  hasBoxValue (splitGapStyleValue stored)

/-- The value setPaddingValues hands to the store for an edited mapping
(setMarginValues is identical). -/
def setPaddingWrite (newValues : JSObj) (sides : Option (List String)) : JSObj :=
  filterValuesBySides newValues sides

/-- resetPaddingValue calls setPaddingValues with the empty object. -/
def resetPaddingWrite (sides : Option (List String)) : JSObj :=
  setPaddingWrite [] sides

/-- The value setGapValues hands to the store for an edited mapping. -/
def setGapWrite (newValues : JSVal) (sides : Option (List String)) : JSObj :=
  filterGapValuesBySides newValues sides

/-- resetGapValue calls setGapValues with the empty object. -/
def resetGapWrite (sides : Option (List String)) : JSObj :=
  setGapWrite (.obj []) sides

/-- The border styles the border panel reads and writes. -/
structure BorderState where
  width : JSVal
  style : JSVal
  color : JSVal
deriving DecidableEq, Repr

/-- Which border style slot a handler writes to. -/
inductive BorderFeature where
  | width
  | style
  | color
deriving DecidableEq, Repr

/-- Writing one border style slot. -/
def setFeature : BorderFeature → BorderState → JSVal → BorderState
  | .width, s, v => { s with width := v }
  | .style, s, v => { s with style := v }
  | .color, s, v => { s with color := v }

/-- Reading one border style slot. -/
def getFeature : BorderFeature → BorderState → JSVal
  | .width, s => s.width
  | .style, s => s.style
  | .color, s => s.color

/-- handleOnChange from the border panel: setStyle(value || undefined). -/
def handleOnChange (f : BorderFeature) (s : BorderState) (value : JSVal) : BorderState :=
  setFeature f s (if value.truthy then value else .undef)

/-- handleOnChangeWithStyle from the border panel: when the value is
truthy and no border style is set, first set the style to solid, then
write the value (falsy coerced to undefined) to the target slot. -/
def handleOnChangeWithStyle (f : BorderFeature) (s : BorderState) (value : JSVal) : BorderState :=
  let s1 := if value.truthy && !s.style.truthy then setFeature .style s (.str "solid") else s
  setFeature f s1 (if value.truthy then value else .undef)

/-- hasBorderRadius from the border panel. On an object it evaluates
Object.entries(o).some(Boolean); each entry is a two-element array and
arrays are always truthy, so this only asks whether an entry exists. -/
def hasBorderRadius (radius : JSVal) : Bool :=
  match radius with
  | .obj o => o.any (fun _ => true)
  | v => v.truthy

/-- Spec-side predicate (for comparison with the splitter contract): the
value is an object in which all four side keys are present. -/
def hasAllFourSideKeys (v : JSVal) : Bool :=
  match v with
  | .obj o => ["top", "right", "bottom", "left"].all (fun k => (o.lookup k).isSome)
  | _ => false

/-- C1 counterexample: filtering a uniform four-side mapping with the
subset consisting of the vertical axis token does not produce exactly
the keys top and bottom; the unconditional copy line also emits the key
vertical (holding undefined). -/
theorem filterValuesBySides_vertical_extra_key :
    filterValuesBySides
      [("top", some "4px"), ("right", some "4px"), ("bottom", some "4px"), ("left", some "4px")]
      (some ["vertical"]) ≠
      [("top", some "4px"), ("bottom", some "4px")] := by decide

/-- C1 (amended): a vertical entry contributes top and bottom plus the
key vertical itself (copied from the edited mapping, hence undefined on
a four-side mapping); a horizontal entry contributes left and right plus
the key horizontal; a discrete side entry contributes exactly that edge;
and the concrete uniform example yields top, bottom and vertical. -/
theorem filterValuesBySides_axis_entries_characterization (values : JSObj) :
    filterValuesBySides values (some ["vertical"]) =
      [("top", values.get "top"), ("bottom", values.get "bottom"),
        ("vertical", values.get "vertical")] ∧
    filterValuesBySides values (some ["horizontal"]) =
      [("left", values.get "left"), ("right", values.get "right"),
        ("horizontal", values.get "horizontal")] ∧
    filterValuesBySides values (some ["top"]) = [("top", values.get "top")] ∧
    filterValuesBySides values (some ["right"]) = [("right", values.get "right")] ∧
    filterValuesBySides values (some ["bottom"]) = [("bottom", values.get "bottom")] ∧
    filterValuesBySides values (some ["left"]) = [("left", values.get "left")] ∧
    filterValuesBySides
      [("top", some "4px"), ("right", some "4px"), ("bottom", some "4px"), ("left", some "4px")]
      (some ["vertical"]) =
      [("top", some "4px"), ("bottom", some "4px"), ("vertical", none)] :=
  ⟨rfl, rfl, rfl, rfl, rfl, rfl, by decide⟩

/-- C2 (code bug, evaluated at the failing input): with an entirely
absent stored block-gap value, the split mapping has all four side keys
holding undefined, yet hasGapValue reports true, because it counts keys
of the always-four-key split object instead of non-absent values. -/
theorem hasGapValue_true_on_absent_store :
    splitGapStyleValue JSVal.undef =
      .obj [("top", none), ("right", none), ("bottom", none), ("left", none)] ∧
    hasGapValue JSVal.undef = true := by decide

/-- C3 counterexample: the box-model splitter does not always return a
mapping with the four side keys: an absent input is returned as absent
(not a four-key mapping of absent edges), and a one-key per-side mapping
is passed through without the missing keys being added. -/
theorem splitStyleValue_not_total_widening :
    splitStyleValue JSVal.undef = JSVal.undef ∧
    hasAllFourSideKeys (splitStyleValue JSVal.undef) = false ∧
    hasAllFourSideKeys (splitStyleValue (.obj [("top", some "1px")])) = false := by decide

/-- C3 (amended): the box-model splitter expands only a truthy string
shorthand into the four side keys; every other input — absent values,
numbers, and per-side mappings whether partial or complete — is returned
unchanged, so nothing guarantees the four keys are present. -/
theorem splitStyleValue_expands_only_truthy_strings (s : String) (v : JSVal)
    (hs : s ≠ "") (hv : ∀ t, v = JSVal.str t → t = "") :
    splitStyleValue (.str s) =
      .obj [("top", some s), ("right", some s), ("bottom", some s), ("left", some s)] ∧
    splitStyleValue v = v := by
  constructor
  · simp [splitStyleValue, hs]
  · cases v with
    | str t =>
        have ht : t = "" := hv t rfl
        subst ht
        simp [splitStyleValue]
    | undef => rfl
    | num n => rfl
    | obj o => rfl

/-- C3 witness: the amended splitter statement at a concrete shorthand
and at the absent value. -/
theorem splitStyleValue_expands_only_truthy_strings_check :
    ("4px" : String) ≠ "" ∧ splitStyleValue JSVal.undef = JSVal.undef :=
  ⟨by decide,
    (splitStyleValue_expands_only_truthy_strings "4px" JSVal.undef (by decide)
      (fun t h => nomatch h)).2⟩

/-- C4 (code bug, evaluated at the failing input): reset writes the
filter of the empty object, and with the side subset consisting of the
vertical axis token the written padding mapping holds three keys with
undefined values, so the subsequent read/split cycle reports hasValue
true; the gap reset likewise leaves hasGapValue true; and with an absent
subset the reset write (the empty object) differs from the filter of an
all-absent four-side mapping. -/
theorem reset_then_hasValue_reports_true :
    resetPaddingWrite (some ["vertical"]) =
      [("top", none), ("bottom", none), ("vertical", none)] ∧
    hasPaddingValue (.obj [("top", none), ("bottom", none), ("vertical", none)]) = true ∧
    resetGapWrite none = [("row", none), ("column", none)] ∧
    hasGapValue (.obj [("row", none), ("column", none)]) = true ∧
    resetPaddingWrite none ≠
      filterValuesBySides
        [("top", none), ("right", none), ("bottom", none), ("left", none)] none := by decide

/-- C5 counterexample: an unrecognized subset entry is not dropped from
the filter output; it is emitted as a key (holding undefined when the
edited mapping lacks it). -/
theorem filterValuesBySides_unknown_entry_emits_key :
    filterValuesBySides
      [("top", some "4px"), ("right", some "4px"), ("bottom", some "4px"), ("left", some "4px")]
      (some ["diagonal"]) = [("diagonal", none)] ∧
    ([("diagonal", none)] : JSObj) ≠ [] := by decide

/-- C5 (amended): a subset entry that is neither vertical nor horizontal
contributes exactly one key — the entry string itself — holding the
edited mapping's value under that key (undefined when the mapping lacks
it); no error is surfaced. -/
theorem filterValuesBySides_unknown_entry_copies_itself (values acc : JSObj) (s : String)
    (hv : s ≠ "vertical") (hh : s ≠ "horizontal") :
    filterSidesStep values acc s = acc.assign s (values.get s) ∧
    filterValuesBySides values (some [s]) = [(s, values.get s)] := by
  constructor
  · simp [filterSidesStep, hv, hh]
  · simp [filterValuesBySides, filterSidesStep, hv, hh, JSObj.assign]

/-- C5 witness: the amended statement at the concrete unrecognized entry
diagonal over the empty edited mapping. -/
theorem filterValuesBySides_unknown_entry_copies_itself_check :
    ("diagonal" : String) ≠ "vertical" ∧
    filterValuesBySides [] (some ["diagonal"]) = [("diagonal", JSObj.get [] "diagonal")] :=
  ⟨by decide,
    (filterValuesBySides_unknown_entry_copies_itself [] [] "diagonal"
      (by decide) (by decide)).2⟩

/-- C6: writing a truthy border width or color while no border style is
set also sets the style to solid (and still writes the value), while
writing an absent width over an already-set style leaves the style
unchanged. -/
theorem border_width_write_sets_solid_style (s t : BorderState) (v : JSVal)
    (hv : v.truthy = true) (hs : s.style.truthy = false) (ht : t.style.truthy = true) :
    (handleOnChangeWithStyle .width s v).style = .str "solid" ∧
    (handleOnChangeWithStyle .width s v).width = v ∧
    (handleOnChangeWithStyle .color s v).style = .str "solid" ∧
    (handleOnChangeWithStyle .color s v).color = v ∧
    (handleOnChangeWithStyle .width t .undef).style = t.style ∧
    (handleOnChangeWithStyle .width t .undef).width = .undef := by
  have h0 : JSVal.truthy .undef = false := rfl
  simp [handleOnChangeWithStyle, setFeature, hv, hs, ht, h0]

/-- C6 witness: a concrete width write over an unset style yields the
solid style. -/
theorem border_width_write_sets_solid_style_check :
    (JSVal.str "1px").truthy = true ∧
    (handleOnChangeWithStyle .width ⟨.undef, .undef, .undef⟩ (.str "1px")).style =
      .str "solid" :=
  ⟨by decide,
    (border_width_write_sets_solid_style ⟨.undef, .undef, .undef⟩
      ⟨.undef, .str "dotted", .undef⟩ (.str "1px") (by decide) (by decide) (by decide)).1⟩

/-- C7: the gap round trip — splitting a row/column pair duplicates row
onto top and bottom and column onto right and left, and filtering that
mapping with an absent subset collapses it back to exactly the row and
column keys. -/
theorem splitGap_filterGap_round_trip (r c : String) :
    splitGapStyleValue (.obj [("row", some r), ("column", some c)]) =
      .obj [("top", some r), ("right", some c), ("bottom", some r), ("left", some c)] ∧
    filterGapValuesBySides
      (.obj [("top", some r), ("right", some c), ("bottom", some r), ("left", some c)]) none =
      [("row", some r), ("column", some c)] :=
  ⟨rfl, rfl⟩

/-- C8: the gap filter reads only the top and left fields of the edited
mapping — two mappings agreeing on those produce identical outputs for
every subset — and a subset entry that is not an axis token contributes
no output key. -/
theorem filterGap_reads_only_top_left (v1 v2 : JSVal)
    (ht : v1.getField "top" = v2.getField "top")
    (hl : v1.getField "left" = v2.getField "left") :
    (∀ sides, filterGapValuesBySides v1 sides = filterGapValuesBySides v2 sides) ∧
    (∀ acc s, s ≠ "horizontal" → s ≠ "vertical" → filterGapStep v1 acc s = acc) := by
  have hstep : filterGapStep v1 = filterGapStep v2 := by
    funext acc s
    simp [filterGapStep, ht, hl]
  refine ⟨?_, ?_⟩
  · intro sides
    cases sides with
    | none => simp [filterGapValuesBySides, ht, hl]
    | some l => simp [filterGapValuesBySides, hstep]
  · intro acc s hh hv
    simp [filterGapStep, hh, hv]

/-- C8 witness: two concrete mappings differing only below the axis
representatives filter identically under the horizontal subset. -/
theorem filterGap_reads_only_top_left_check :
    (JSVal.obj [("top", some "1px"), ("left", some "2px"), ("bottom", some "9px")]).getField
        "top" =
      (JSVal.obj [("top", some "1px"), ("left", some "2px")]).getField "top" ∧
    filterGapValuesBySides
        (JSVal.obj [("top", some "1px"), ("left", some "2px"), ("bottom", some "9px")])
        (some ["horizontal"]) =
      filterGapValuesBySides (JSVal.obj [("top", some "1px"), ("left", some "2px")])
        (some ["horizontal"]) :=
  ⟨rfl,
    (filterGap_reads_only_top_left
      (.obj [("top", some "1px"), ("left", some "2px"), ("bottom", some "9px")])
      (.obj [("top", some "1px"), ("left", some "2px")]) rfl rfl).1 (some ["horizontal"])⟩

/-- C9: whenever the stored user radius is an object, hasBorderRadius
reports true exactly when the object has at least one key, regardless of
the corner values — an object whose every value is absent still reports
true. -/
theorem hasBorderRadius_counts_keys (o : JSObj) :
    (hasBorderRadius (.obj o) = true ↔ o ≠ []) ∧
    hasBorderRadius (.obj [("topLeft", none), ("topRight", none)]) = true := by
  constructor
  · cases o <;> simp [hasBorderRadius]
  · decide

/-- C10: every border edit handler coerces a falsy edited value to
undefined before writing, so the target slot ends up holding undefined,
never the falsy value itself. -/
theorem border_falsy_write_coerced_to_undefined (f : BorderFeature) (s : BorderState)
    (v : JSVal) (hv : v.truthy = false) :
    getFeature f (handleOnChange f s v) = .undef ∧
    getFeature f (handleOnChangeWithStyle f s v) = .undef := by
  cases f <;> simp [handleOnChange, handleOnChangeWithStyle, setFeature, getFeature, hv]

/-- C10 witness: clearing a width control with the empty string writes
undefined to the width slot. -/
theorem border_falsy_write_coerced_to_undefined_check :
    (JSVal.str "").truthy = false ∧
    getFeature .width
        (handleOnChange .width ⟨.str "3px", .str "dotted", .undef⟩ (.str "")) = .undef :=
  ⟨by decide,
    (border_falsy_write_coerced_to_undefined .width ⟨.str "3px", .str "dotted", .undef⟩
      (.str "") (by decide)).1⟩
